import Mathlib

/-!
Shallow embedding of the rocket_csrf_guard crate (CSRF protection for Rocket
applications) and verification of its specification claims.

Sources embedded:
- src/rocket_csrf_guard/src/util.rs        (set_proof_in_cache over the Rocket request-local cache)
- src/rocket_csrf_guard/src/proof.rs       (CsrfCheckProof and its FromRequest guard)
- src/rocket_csrf_guard/src/verifier.rs    (VerifierWithKnownExpectedToken blanket verifier)
- src/rocket_csrf_guard/src/cookie.rs      (double-submit cookie verifier and its FromRequest guard)
- src/rocket_csrf_guard/src/form.rs        (CsrfProtectedForm and CsrfProtectedFormWithGuard FromData)
- src/rocket_csrf_guard/src/header.rs      (CheckCsrfProtectionHeader FromRequest)
- src/rocket_csrf_guard_derive/src/lib.rs  (the with_csrf_token attribute transform)

Modelling conventions:
- A Rocket HTTP status is a bare numeric code.
- A Rocket Outcome (both the request and the data variant) is a three-way sum:
  success with a value, error with a status and an error value, forward with a
  forwarding payload (Unit, a Status, or data-plus-status, matching each site).
- A token source (dyn WithUserProvidedCsrfToken) is modelled by the String its
  single method csrf_token() returns.
- The Rocket request-local cache for the proof type P is one slot per request,
  keyed by the cached type: a value of type Option (Option P), where none
  means the slot has never been accessed and some v means the slot was
  initialized to v by the first access. request.local_cache(f) returns the
  stored value, first storing f () if the slot was never accessed.
- Control flow through from_data / from_request is made observable by an event
  trace listing the steps the code actually executed, in order.
-/

/-- Rocket HTTP status, by numeric code. -/
structure Status where
  code : Nat
deriving DecidableEq

/-- Status 403, rocket::http::Status::Forbidden. -/
def Status.Forbidden : Status := ⟨403⟩

/-- Status 500, rocket::http::Status::InternalServerError. -/
def Status.InternalServerError : Status := ⟨500⟩

/-- Rocket Outcome with success type S, error type E and forward payload Fw.
Request guards use Fw = Unit or Fw = Status; data guards use Fw = data × Status. -/
inductive Outcome (S E Fw : Type) where
  | success : S → Outcome S E Fw
  | error : Status → E → Outcome S E Fw
  | forward : Fw → Outcome S E Fw
deriving DecidableEq

/-- The Rocket request-local cache slot for type Option P: none = never
accessed, some v = pinned to v by the first access. -/
def CacheSlot (P : Type) : Type := Option (Option P)

instance (P : Type) [DecidableEq P] : DecidableEq (CacheSlot P) :=
  inferInstanceAs (DecidableEq (Option (Option P)))

/-- request.local_cache(init): returns the cached value of type Option P,
computing and storing init () only if the slot was never accessed.
Returns the value together with the updated slot. -/
def local_cache {P : Type} (slot : CacheSlot P) (init : Option P) :
    Option P × CacheSlot P :=
  match slot with
  | some v => (v, some v)
  | none => (init, some init)

/-- util.rs set_proof_in_cache: request.local_cache(|| Some(proof)), result
discarded. Only the slot update is observable. -/
def set_proof_in_cache {P : Type} (slot : CacheSlot P) (proof : P) : CacheSlot P :=
  (local_cache slot (some proof)).2

/-- proof.rs CsrfCheckProof: the only value is PassedCsrfChecks. -/
inductive CsrfCheckProof where
  | PassedCsrfChecks : CsrfCheckProof
deriving DecidableEq

/-- impl Default for CsrfCheckProof. -/
instance : Inhabited CsrfCheckProof := ⟨.PassedCsrfChecks⟩

/-- proof.rs FromRequest for CsrfCheckProof: read the request-local cache slot
initialized empty (|| None); a cached proof is Success, an empty slot is
Forward(InternalServerError). The error type is Infallible (Empty). -/
def CsrfCheckProof.from_request (slot : CacheSlot CsrfCheckProof) :
    Outcome CsrfCheckProof Empty Status × CacheSlot CsrfCheckProof :=
  let r := local_cache slot none
  (match r.1 with
   | some proof => .success proof
   | none => .forward Status.InternalServerError, r.2)

/-- verifier.rs CsrfTokenVerificationError. -/
inductive CsrfTokenVerificationError where
  | CsrfTokenMismatch : CsrfTokenVerificationError
  | Unknown : String → CsrfTokenVerificationError
deriving DecidableEq

/-- verifier.rs VerifierWithKnownExpectedToken: a verifier that knows its
expected token; the associated Proof type has a Default value, carried here
as an explicit field. -/
structure KnownExpectedVerifier (P : Type) where
  expected_token : String
  defaultProof : P
deriving DecidableEq

/-- verifier.rs blanket impl of CsrfTokenVerifier for any
VerifierWithKnownExpectedToken: ok(Proof::default()) when the submitted token
equals the expected token, CsrfTokenMismatch otherwise. -/
def KnownExpectedVerifier.verify {P : Type} (v : KnownExpectedVerifier P)
    (token : String) : Except CsrfTokenVerificationError P :=
  if token = v.expected_token then .ok v.defaultProof
  else .error .CsrfTokenMismatch

/-- cookie.rs DoubleSubmitCookieCsrfToken: holds the expected value read from
the double-submit cookie during its own construction. -/
structure DoubleSubmitCookieCsrfToken where
  stored : String
deriving DecidableEq

/-- cookie.rs impl CsrfTokenVerifier for DoubleSubmitCookieCsrfToken:
ok(PassedCsrfChecks) when the submitted token equals the stored cookie value,
CsrfTokenMismatch otherwise. -/
def DoubleSubmitCookieCsrfToken.verify (v : DoubleSubmitCookieCsrfToken)
    (token : String) : Except CsrfTokenVerificationError CsrfCheckProof :=
  if token = v.stored then .ok .PassedCsrfChecks
  else .error .CsrfTokenMismatch

/-- cookie.rs FromRequest for DoubleSubmitCookieCsrfToken. The private cookie
jar entry for __Host-csrf-token is modelled as an Option String. Reading the
cookie removes it from the jar before returning its value; a missing cookie
forwards. Returns the outcome together with the jar after extraction. -/
def DoubleSubmitCookieCsrfToken.from_request (jar : Option String) :
    Outcome DoubleSubmitCookieCsrfToken Empty Unit × Option String :=
  match jar with
  | some value => (.success ⟨value⟩, none)
  | none => (.forward (), none)

/-- One extraction-then-verification round against the double-submit cookie:
extract the verifier from the jar (consuming the cookie), then, only on
successful extraction, run the comparison against the submitted token.
Returns none when extraction forwarded, some of the verification result
otherwise, together with the jar left behind. -/
def doubleSubmitRound (jar : Option String) (submitted : String) :
    Option (Except CsrfTokenVerificationError CsrfCheckProof) × Option String :=
  match DoubleSubmitCookieCsrfToken.from_request jar with
  | (.success tok, jarAfter) => (some (tok.verify submitted), jarAfter)
  | (.error _ _, jarAfter) => (none, jarAfter)
  | (.forward _, jarAfter) => (none, jarAfter)

/-- Steps of the from_data / from_request control flow, in execution order,
used to make sequencing observable. -/
inductive Event where
  | extractVerifier : Event
  | parseForm : Event
  | runVerify : Event
  | publishProof : Event
  | extractGuard : Event
deriving DecidableEq

/-- form.rs CsrfProtectedFormError. -/
inductive CsrfProtectedFormError (T : Type) where
  | NoVerifierFound : CsrfProtectedFormError T
  | CsrfTokenVerificationErr : CsrfProtectedFormError T
  | FormParsing : T → CsrfProtectedFormError T
deriving DecidableEq

/-- form.rs CsrfProtectedFormWithGuardError. -/
inductive CsrfProtectedFormWithGuardError (T E : Type) where
  | CsrfProtection : CsrfProtectedFormError T → CsrfProtectedFormWithGuardError T E
  | FromRequestForwarded : CsrfProtectedFormWithGuardError T E
  | FromRequestFailed : Status → E → CsrfProtectedFormWithGuardError T E
deriving DecidableEq

/-- form.rs CsrfProtectedForm: the parsed form together with the proof that
its CSRF token verified. The verifier type parameter is phantom. -/
structure CsrfProtectedForm (F P : Type) where
  form : F
  proof : P
deriving DecidableEq

/-- form.rs FromData for CsrfProtectedForm. Inputs model the environment:
guardV is what request.guard::<V>() returns, fromDataF is what
F::from_data(request, data) returns, verify is the verifier method V::verify
applied to the parsed form, data the raw payload (returned inside a Forward),
cache the request-local proof slot. Returns the outcome, the updated cache
slot, and the trace of steps executed. -/
def CsrfProtectedForm.from_data {V F FE D VE P VErr : Type}
    (guardV : Outcome V VE Status)
    (fromDataF : Outcome F FE (D × Status))
    (verify : V → F → Except VErr P)
    (data : D) (cache : CacheSlot P) :
    Outcome (CsrfProtectedForm F P) (CsrfProtectedFormError FE) (D × Status)
      × CacheSlot P × List Event :=
  match guardV with
  | .error status _ => (.error status .NoVerifierFound, cache, [.extractVerifier])
  | .forward status => (.forward (data, status), cache, [.extractVerifier])
  | .success verifier =>
    match fromDataF with
    | .error status e =>
        (.error status (.FormParsing e), cache, [.extractVerifier, .parseForm])
    | .forward f => (.forward f, cache, [.extractVerifier, .parseForm])
    | .success inner =>
      match verify verifier inner with
      | .error _ =>
          (.error Status.Forbidden .CsrfTokenVerificationErr, cache,
           [.extractVerifier, .parseForm, .runVerify])
      | .ok proof =>
          (.success ⟨inner, proof⟩, set_proof_in_cache cache proof,
           [.extractVerifier, .parseForm, .runVerify, .publishProof])

/-- form.rs CsrfProtectedFormWithGuard: the parsed form, the proof, and the
extra guard value. -/
structure CsrfProtectedFormWithGuard (F P G : Type) where
  form : F
  proof : P
  guard : G
deriving DecidableEq

/-- form.rs FromData for CsrfProtectedFormWithGuard: like CsrfProtectedForm
but, after a successful verification and proof publication, additionally runs
the request guard G. A guard error fails with the guard's own status inside
FromRequestFailed; a guard forward fails hard with InternalServerError and
FromRequestForwarded. -/
def CsrfProtectedFormWithGuard.from_data {V F FE D VE P VErr G GE : Type}
    (guardV : Outcome V VE Status)
    (fromDataF : Outcome F FE (D × Status))
    (verify : V → F → Except VErr P)
    (guardG : Outcome G GE Status)
    (data : D) (cache : CacheSlot P) :
    Outcome (CsrfProtectedFormWithGuard F P G)
        (CsrfProtectedFormWithGuardError FE GE) (D × Status)
      × CacheSlot P × List Event :=
  match guardV with
  | .error status _ =>
      (.error status (.CsrfProtection .NoVerifierFound), cache, [.extractVerifier])
  | .forward status => (.forward (data, status), cache, [.extractVerifier])
  | .success verifier =>
    match fromDataF with
    | .error status e =>
        (.error status (.CsrfProtection (.FormParsing e)), cache,
         [.extractVerifier, .parseForm])
    | .forward f => (.forward f, cache, [.extractVerifier, .parseForm])
    | .success form =>
      match verify verifier form with
      | .error _ =>
          (.error Status.Forbidden (.CsrfProtection .CsrfTokenVerificationErr),
           cache, [.extractVerifier, .parseForm, .runVerify])
      | .ok proof =>
        match guardG with
        | .success guard =>
            (.success ⟨form, proof, guard⟩, set_proof_in_cache cache proof,
             [.extractVerifier, .parseForm, .runVerify, .publishProof,
              .extractGuard])
        | .error status e =>
            (.error status (.FromRequestFailed status e),
             set_proof_in_cache cache proof,
             [.extractVerifier, .parseForm, .runVerify, .publishProof,
              .extractGuard])
        | .forward _ =>
            (.error Status.InternalServerError .FromRequestForwarded,
             set_proof_in_cache cache proof,
             [.extractVerifier, .parseForm, .runVerify, .publishProof,
              .extractGuard])

/-- header.rs CheckCsrfProtectionHeaderError. -/
inductive CheckCsrfProtectionHeaderError where
  | NoVerifierFound : CheckCsrfProtectionHeaderError
  | NoHeaderPresent : CheckCsrfProtectionHeaderError
  | CsrfTokenVerificationErr : CheckCsrfProtectionHeaderError
deriving DecidableEq

/-- header.rs CheckCsrfProtectionHeader is a zero-sized marker value. -/
structure CheckCsrfProtectionHeader where
deriving DecidableEq

/-- header.rs FromRequest for CheckCsrfProtectionHeader: extract the verifier
(errors map to NoVerifierFound with the extraction status, forwards
propagate), then read the X-CSRF-Token header (absent: Forbidden with
NoHeaderPresent), then verify the header value (mismatch: Forbidden with the
verification error; success: publish the proof and succeed). -/
def CheckCsrfProtectionHeader.from_request {V VE P VErr : Type}
    (guardV : Outcome V VE Status)
    (header : Option String)
    (verify : V → String → Except VErr P)
    (cache : CacheSlot P) :
    Outcome CheckCsrfProtectionHeader CheckCsrfProtectionHeaderError Status
      × CacheSlot P :=
  match guardV with
  | .error status _ => (.error status .NoVerifierFound, cache)
  | .forward f => (.forward f, cache)
  | .success verifier =>
    match header with
    | none => (.error Status.Forbidden .NoHeaderPresent, cache)
    | some token =>
      match verify verifier token with
      | .error _ => (.error Status.Forbidden .CsrfTokenVerificationErr, cache)
      | .ok proof => (.success ⟨⟩, set_proof_in_cache cache proof)

/-- syn GenericParam as seen by the derive macro: a lifetime, type, or const
parameter, each carrying its identifier. -/
inductive GenericParam where
  | lifetime : String → GenericParam
  | tyParam : String → GenericParam
  | constParam : String → GenericParam
deriving DecidableEq

/-- The type of a named struct field, as far as the macro output
distinguishes: a borrowed string with a lifetime, an owned String, or any
other pre-existing type. -/
inductive FieldType where
  | refStr : String → FieldType
  | string : FieldType
  | other : String → FieldType
deriving DecidableEq

/-- syn ItemStruct restricted to what with_csrf_token inspects: the generic
parameter list in declaration order, and the named fields (name, type) in
declaration order. -/
structure ItemStruct where
  params : List GenericParam
  fields : List (String × FieldType)
deriving DecidableEq

/-- rocket_csrf_guard_derive get_singular_lifetime: some lifetime identifier
when the generic parameter list has length exactly one and that single
parameter is a lifetime, none otherwise. -/
def get_singular_lifetime (item : ItemStruct) : Option String :=
  if item.params.length ≠ 1 then none
  else
    match item.params.head? with
    | some (.lifetime l) => some l
    | _ => none

/-- rocket_csrf_guard_derive with_csrf_token, restricted to its effect on the
field list of a named-fields struct: resolve the field name (the argument, or
csrf_token by default); when no field of that name exists, append one typed
with the borrowed str type at the singular lifetime when
get_singular_lifetime yields one, and the owned String type otherwise. -/
def with_csrf_token (argName : Option String) (item : ItemStruct) : ItemStruct :=
  let field_name := argName.getD "csrf_token"
  let lifetime := get_singular_lifetime item
  let existing := item.fields.any (fun f => f.1 = field_name)
  if existing then item
  else
    match lifetime with
    | some l => { item with fields := item.fields ++ [(field_name, .refStr l)] }
    | none => { item with fields := item.fields ++ [(field_name, .string)] }

/-- The number of lifetime parameters in a generic parameter list (counting
only lifetimes, not type or const parameters); used to state claims phrased
in terms of lifetime parameters. -/
def countLifetimes (ps : List GenericParam) : Nat :=
  (ps.filter (fun p => match p with | .lifetime _ => true | _ => false)).length

/-- C1: for every verifier with a known expected token (the blanket
implementation over VerifierWithKnownExpectedToken, and the double-submit
cookie verifier whose expected value is the stored cookie string),
verify(token_source) returns the default Proof value exactly when the token
source yields the expected token, and CsrfTokenMismatch for every other
submitted string. -/
theorem claim_C1 {P : Type} (v : KnownExpectedVerifier P)
    (d : DoubleSubmitCookieCsrfToken) (t : String) :
    (v.verify t = .ok v.defaultProof ↔ t = v.expected_token) ∧
    (v.verify t = .error .CsrfTokenMismatch ↔ t ≠ v.expected_token) ∧
    (d.verify t = .ok .PassedCsrfChecks ↔ t = d.stored) ∧
    (d.verify t = .error .CsrfTokenMismatch ↔ t ≠ d.stored) := by
  unfold KnownExpectedVerifier.verify DoubleSubmitCookieCsrfToken.verify
  by_cases h1 : t = v.expected_token <;> by_cases h2 : t = d.stored <;>
    simp [h1, h2]

/-- C1 witness: concrete instantiation of claim_C1. -/
theorem claim_C1_witness :
    let v : KnownExpectedVerifier Nat := ⟨"secret", 7⟩
    let d : DoubleSubmitCookieCsrfToken := ⟨"cookie-value"⟩
    (v.verify "tok" = .ok v.defaultProof ↔ "tok" = v.expected_token) ∧
    (v.verify "tok" = .error .CsrfTokenMismatch ↔ "tok" ≠ v.expected_token) ∧
    (d.verify "tok" = .ok .PassedCsrfChecks ↔ "tok" = d.stored) ∧
    (d.verify "tok" = .error .CsrfTokenMismatch ↔ "tok" ≠ d.stored) :=
  claim_C1 ⟨"secret", 7⟩ ⟨"cookie-value"⟩ "tok"

/-- C3: extracting the double-submit cookie verifier removes the cookie from
the jar before any comparison is evaluated and regardless of whether the
subsequent comparison succeeds or fails (the submitted string is universally
quantified); a second request presenting no re-issued cookie finds the jar
empty and the extraction forwards. -/
theorem claim_C3 (v s s2 : String) :
    (DoubleSubmitCookieCsrfToken.from_request (some v)).2 = none ∧
    (doubleSubmitRound (some v) s).2 = none ∧
    (doubleSubmitRound (some v) s).1 =
      some ((DoubleSubmitCookieCsrfToken.mk v).verify s) ∧
    (DoubleSubmitCookieCsrfToken.from_request none).1 = .forward () ∧
    (doubleSubmitRound none s2).1 = none :=
  ⟨rfl, rfl, rfl, rfl, rfl⟩

/-- C3 witness: concrete round with the issued value echoed and with a
modified value. -/
theorem claim_C3_witness :
    (DoubleSubmitCookieCsrfToken.from_request (some "abc123")).2 = none ∧
    (doubleSubmitRound (some "abc123") "abc124").2 = none ∧
    (doubleSubmitRound (some "abc123") "abc124").1 =
      some ((DoubleSubmitCookieCsrfToken.mk "abc123").verify "abc124") ∧
    (DoubleSubmitCookieCsrfToken.from_request none).1 = .forward () ∧
    (doubleSubmitRound none "abc123").1 = none :=
  claim_C3 "abc123" "abc124" "abc123"

/-- C4 counterexample: two successful verifications publish proofs 1 then 2
into a fresh request cache; the slot records the first proof, not the last,
refuting the last-successful-verification-wins reading of the claim. -/
theorem claim_C4_counterexample :
    set_proof_in_cache (set_proof_in_cache (none : CacheSlot Nat) 1) 2 =
      some (some 1) ∧
    set_proof_in_cache (set_proof_in_cache (none : CacheSlot Nat) 1) 2 ≠
      some (some 2) := by
  exact ⟨rfl, by decide⟩

/-- C4 amended: the per-request proof slot is one slot, initialized empty, and
written at most once per request lifetime; the first write wins and every
later set_proof_in_cache call on an already-accessed slot is a no-op. -/
theorem claim_C4_amended {P : Type} (slot : CacheSlot P) (p q : P) :
    set_proof_in_cache (none : CacheSlot P) p = some (some p) ∧
    (slot ≠ none → set_proof_in_cache slot p = slot) ∧
    set_proof_in_cache (set_proof_in_cache (none : CacheSlot P) p) q =
      set_proof_in_cache (none : CacheSlot P) p := by
  refine ⟨rfl, ?_, rfl⟩
  intro h
  match slot with
  | none => exact absurd rfl h
  | some v => rfl

/-- C4 witness: concrete instantiation of claim_C4_amended at proof values 1
and 2 over an accessed slot holding 5. -/
theorem claim_C4_witness :
    set_proof_in_cache (none : CacheSlot Nat) 1 = some (some 1) ∧
    set_proof_in_cache (some (some 5) : CacheSlot Nat) 1 = some (some 5) ∧
    set_proof_in_cache (set_proof_in_cache (none : CacheSlot Nat) 1) 2 =
      some (some 1) :=
  ⟨(claim_C4_amended (some (some 5) : CacheSlot Nat) 1 2).1,
   (claim_C4_amended (some (some 5) : CacheSlot Nat) 1 2).2.1 (by decide),
   ((claim_C4_amended (some (some 5) : CacheSlot Nat) 1 2).2.2).trans
     (claim_C4_amended (some (some 5) : CacheSlot Nat) 1 2).1⟩

/-- C5: in a request whose proof slot holds no published proof (never accessed
or pinned empty), the CsrfCheckProof guard forwards with
InternalServerError and never succeeds; after a successful verification has
published a proof into a fresh slot, the same guard succeeds with that
proof. -/
theorem claim_C5 (slot : CacheSlot CsrfCheckProof)
    (h : slot = none ∨ slot = some none) (p : CsrfCheckProof) :
    (CsrfCheckProof.from_request slot).1 =
      .forward Status.InternalServerError ∧
    (∀ pr, (CsrfCheckProof.from_request slot).1 ≠ .success pr) ∧
    (CsrfCheckProof.from_request (set_proof_in_cache none p)).1 =
      .success p := by
  rcases h with h | h <;> subst h <;>
    exact ⟨rfl, fun pr hpr => by simp [CsrfCheckProof.from_request,
      local_cache] at hpr, rfl⟩

/-- C5 witness: concrete instantiation of claim_C5 on a never-accessed slot. -/
theorem claim_C5_witness :
    (CsrfCheckProof.from_request (none : CacheSlot CsrfCheckProof)).1 =
      .forward Status.InternalServerError ∧
    (∀ pr, (CsrfCheckProof.from_request (none : CacheSlot CsrfCheckProof)).1 ≠
      .success pr) ∧
    (CsrfCheckProof.from_request
        (set_proof_in_cache none CsrfCheckProof.PassedCsrfChecks)).1 =
      .success CsrfCheckProof.PassedCsrfChecks :=
  claim_C5 none (Or.inl rfl) .PassedCsrfChecks

/-- C10: the proof slot is fixed by its first access: a CsrfCheckProof guard
reading a never-accessed slot forwards and pins the slot to empty, after
which every set_proof_in_cache call is a no-op and a later guard read in the
same request still forwards. -/
theorem claim_C10 (p : CsrfCheckProof) :
    (CsrfCheckProof.from_request none).1 =
      .forward Status.InternalServerError ∧
    (CsrfCheckProof.from_request none).2 = some none ∧
    set_proof_in_cache (CsrfCheckProof.from_request none).2 p =
      (CsrfCheckProof.from_request none).2 ∧
    (CsrfCheckProof.from_request
        (set_proof_in_cache (CsrfCheckProof.from_request none).2 p)).1 =
      .forward Status.InternalServerError :=
  ⟨rfl, rfl, rfl, rfl⟩

/-- C10 witness: concrete instantiation of claim_C10. -/
theorem claim_C10_witness :
    (CsrfCheckProof.from_request none).1 =
      .forward Status.InternalServerError ∧
    (CsrfCheckProof.from_request none).2 = some none ∧
    set_proof_in_cache (CsrfCheckProof.from_request none).2
        CsrfCheckProof.PassedCsrfChecks =
      (CsrfCheckProof.from_request none).2 ∧
    (CsrfCheckProof.from_request
        (set_proof_in_cache (CsrfCheckProof.from_request none).2
          CsrfCheckProof.PassedCsrfChecks)).1 =
      .forward Status.InternalServerError :=
  claim_C10 .PassedCsrfChecks

/-- C2: in CsrfProtectedForm::from_data with the verifier extracted and the
payload parsed, a failed verification yields the Forbidden
CsrfTokenVerificationError with the cache untouched and no wrapper value; a
successful verification publishes the proof into the cache and returns the
wrapper; and, over all environments, any wrapper that is produced came from
a parsed payload that passed verification. -/
theorem claim_C2 {V F FE D VE P VErr : Type}
    (guardV : Outcome V VE Status) (fromDataF : Outcome F FE (D × Status))
    (verify : V → F → Except VErr P) (data : D) (cache : CacheSlot P)
    (verifier : V) (inner : F)
    (hV : guardV = .success verifier) (hF : fromDataF = .success inner) :
    (∀ e, verify verifier inner = .error e →
      CsrfProtectedForm.from_data guardV fromDataF verify data cache =
        (.error Status.Forbidden .CsrfTokenVerificationErr, cache,
         [.extractVerifier, .parseForm, .runVerify])) ∧
    (∀ proof, verify verifier inner = .ok proof →
      CsrfProtectedForm.from_data guardV fromDataF verify data cache =
        (.success ⟨inner, proof⟩, set_proof_in_cache cache proof,
         [.extractVerifier, .parseForm, .runVerify, .publishProof])) ∧
    (∀ (gV : Outcome V VE Status) (fF : Outcome F FE (D × Status))
        (c : CacheSlot P) (w : CsrfProtectedForm F P),
      (CsrfProtectedForm.from_data gV fF verify data c).1 = .success w →
      ∃ vf, gV = .success vf ∧ fF = .success w.form ∧
        verify vf w.form = .ok w.proof) := by
  subst hV hF
  refine ⟨?_, ?_, ?_⟩
  · intro e he
    simp [CsrfProtectedForm.from_data, he]
  · intro proof hp
    simp [CsrfProtectedForm.from_data, hp]
  · intro gV fF c w hw
    cases gV with
    | error status err => simp [CsrfProtectedForm.from_data] at hw
    | forward f => simp [CsrfProtectedForm.from_data] at hw
    | success vf =>
      cases fF with
      | error status e => simp [CsrfProtectedForm.from_data] at hw
      | forward f => simp [CsrfProtectedForm.from_data] at hw
      | success payload =>
        cases hverify : verify vf payload with
        | error e => simp [CsrfProtectedForm.from_data, hverify] at hw
        | ok proof =>
          simp [CsrfProtectedForm.from_data, hverify] at hw
          exact ⟨vf, rfl, by simp [← hw], by simp [← hw, hverify]⟩

/-- C2 witness: concrete run with a double-submit verifier, a matching and a
mismatching token, over a fresh cache. -/
theorem claim_C2_witness :
    (∀ e, (DoubleSubmitCookieCsrfToken.mk "tok").verify "bad" = .error e →
      CsrfProtectedForm.from_data
          (@Outcome.success DoubleSubmitCookieCsrfToken Unit Status
          (DoubleSubmitCookieCsrfToken.mk "tok"))
          (@Outcome.success String Unit (Unit × Status) "bad")
          DoubleSubmitCookieCsrfToken.verify () (none : CacheSlot CsrfCheckProof) =
        (.error Status.Forbidden .CsrfTokenVerificationErr, none,
         [.extractVerifier, .parseForm, .runVerify])) ∧
    (∀ proof, (DoubleSubmitCookieCsrfToken.mk "tok").verify "bad" = .ok proof →
      CsrfProtectedForm.from_data
          (@Outcome.success DoubleSubmitCookieCsrfToken Unit Status
          (DoubleSubmitCookieCsrfToken.mk "tok"))
          (@Outcome.success String Unit (Unit × Status) "bad")
          DoubleSubmitCookieCsrfToken.verify () (none : CacheSlot CsrfCheckProof) =
        (.success ⟨"bad", proof⟩, set_proof_in_cache none proof,
         [.extractVerifier, .parseForm, .runVerify, .publishProof])) ∧
    (∀ (gV : Outcome DoubleSubmitCookieCsrfToken Unit Status)
        (fF : Outcome String Unit (Unit × Status))
        (c : CacheSlot CsrfCheckProof)
        (w : CsrfProtectedForm String CsrfCheckProof),
      (CsrfProtectedForm.from_data gV fF
          DoubleSubmitCookieCsrfToken.verify () c).1 = .success w →
      ∃ vf, gV = .success vf ∧ fF = .success w.form ∧
        vf.verify w.form = .ok w.proof) :=
  claim_C2
    (@Outcome.success DoubleSubmitCookieCsrfToken Unit Status
          (DoubleSubmitCookieCsrfToken.mk "tok"))
    (@Outcome.success String Unit (Unit × Status) "bad")
    DoubleSubmitCookieCsrfToken.verify () none
    (DoubleSubmitCookieCsrfToken.mk "tok") "bad" rfl rfl

/-- C6: in CsrfProtectedForm::from_data, a payload-parsing failure yields
FormParsing wrapping the inner error and status unchanged, with the
verification step never executed and no proof published (cache untouched);
moreover, over all environments, the executed steps always follow the order
extract verifier, parse payload, verify, publish proof (the trace is an
initial segment of that sequence), so the verifier is extracted before the
payload is parsed. -/
theorem claim_C6 {V F FE D VE P VErr : Type}
    (guardV : Outcome V VE Status) (fromDataF : Outcome F FE (D × Status))
    (verify : V → F → Except VErr P) (data : D) (cache : CacheSlot P)
    (verifier : V) (s : Status) (e : FE)
    (hV : guardV = .success verifier) (hF : fromDataF = .error s e) :
    CsrfProtectedForm.from_data guardV fromDataF verify data cache =
      (.error s (.FormParsing e), cache, [.extractVerifier, .parseForm]) ∧
    Event.runVerify ∉
      (CsrfProtectedForm.from_data guardV fromDataF verify data cache).2.2 ∧
    Event.publishProof ∉
      (CsrfProtectedForm.from_data guardV fromDataF verify data cache).2.2 ∧
    (∀ (gV : Outcome V VE Status) (fF : Outcome F FE (D × Status))
        (c : CacheSlot P),
      ∃ n, (CsrfProtectedForm.from_data gV fF verify data c).2.2 =
        List.take n [Event.extractVerifier, Event.parseForm, Event.runVerify,
          Event.publishProof]) := by
  subst hV hF
  refine ⟨rfl, ?_, ?_, ?_⟩
  · show Event.runVerify ∉ [Event.extractVerifier, Event.parseForm]
    decide
  · show Event.publishProof ∉ [Event.extractVerifier, Event.parseForm]
    decide
  intro gV fF c
  cases gV with
  | error st err => exact ⟨1, rfl⟩
  | forward f => exact ⟨1, rfl⟩
  | success vf =>
    cases fF with
    | error st e2 => exact ⟨2, rfl⟩
    | forward f => exact ⟨2, rfl⟩
    | success payload =>
      cases hv : verify vf payload with
      | error e2 => exact ⟨3, by simp [CsrfProtectedForm.from_data, hv]⟩
      | ok proof => exact ⟨4, by simp [CsrfProtectedForm.from_data, hv]⟩

/-- C6 witness: concrete parse failure with a double-submit verifier at
status 422 and inner error message unchanged. -/
theorem claim_C6_witness :
    CsrfProtectedForm.from_data
        (@Outcome.success DoubleSubmitCookieCsrfToken Unit Status
          (DoubleSubmitCookieCsrfToken.mk "tok"))
        (@Outcome.error String String (Unit × Status) ⟨422⟩ "bad form")
        DoubleSubmitCookieCsrfToken.verify () (none : CacheSlot CsrfCheckProof) =
      (.error ⟨422⟩ (.FormParsing "bad form"), none,
       [.extractVerifier, .parseForm]) ∧
    Event.runVerify ∉
      (CsrfProtectedForm.from_data
        (@Outcome.success DoubleSubmitCookieCsrfToken Unit Status
          (DoubleSubmitCookieCsrfToken.mk "tok"))
        (@Outcome.error String String (Unit × Status) ⟨422⟩ "bad form")
        DoubleSubmitCookieCsrfToken.verify ()
        (none : CacheSlot CsrfCheckProof)).2.2 ∧
    Event.publishProof ∉
      (CsrfProtectedForm.from_data
        (@Outcome.success DoubleSubmitCookieCsrfToken Unit Status
          (DoubleSubmitCookieCsrfToken.mk "tok"))
        (@Outcome.error String String (Unit × Status) ⟨422⟩ "bad form")
        DoubleSubmitCookieCsrfToken.verify ()
        (none : CacheSlot CsrfCheckProof)).2.2 ∧
    (∀ (gV : Outcome DoubleSubmitCookieCsrfToken Unit Status)
        (fF : Outcome String String (Unit × Status))
        (c : CacheSlot CsrfCheckProof),
      ∃ n, (CsrfProtectedForm.from_data gV fF
          DoubleSubmitCookieCsrfToken.verify () c).2.2 =
        List.take n [Event.extractVerifier, Event.parseForm, Event.runVerify,
          Event.publishProof]) :=
  claim_C6
    (@Outcome.success DoubleSubmitCookieCsrfToken Unit Status
          (DoubleSubmitCookieCsrfToken.mk "tok"))
    (@Outcome.error String String (Unit × Status) ⟨422⟩ "bad form")
    DoubleSubmitCookieCsrfToken.verify () none
    (DoubleSubmitCookieCsrfToken.mk "tok") ⟨422⟩ "bad form" rfl rfl

/-- C7: in CsrfProtectedFormWithGuard::from_data, once verification has
succeeded, a guard that forwards makes the whole operation fail with
FromRequestForwarded at InternalServerError (the forward is not propagated),
and a guard that fails makes it fail with the guard's own status and error
inside FromRequestFailed; and any wrapper value that is produced required
both a successful verification and a successful guard. -/
theorem claim_C7 {V F FE D VE P VErr G GE : Type}
    (guardV : Outcome V VE Status) (fromDataF : Outcome F FE (D × Status))
    (verify : V → F → Except VErr P) (guardG : Outcome G GE Status)
    (data : D) (cache : CacheSlot P)
    (verifier : V) (inner : F) (proof : P)
    (hV : guardV = .success verifier) (hF : fromDataF = .success inner)
    (hOk : verify verifier inner = .ok proof) :
    (∀ st, guardG = .forward st →
      (CsrfProtectedFormWithGuard.from_data guardV fromDataF verify guardG
          data cache).1 =
        .error Status.InternalServerError .FromRequestForwarded) ∧
    (∀ st e, guardG = .error st e →
      (CsrfProtectedFormWithGuard.from_data guardV fromDataF verify guardG
          data cache).1 =
        .error st (.FromRequestFailed st e)) ∧
    (∀ (gG : Outcome G GE Status) (w : CsrfProtectedFormWithGuard F P G),
      (CsrfProtectedFormWithGuard.from_data guardV fromDataF verify gG
          data cache).1 = .success w →
      gG = .success w.guard ∧ verify verifier w.form = .ok w.proof) := by
  subst hV hF
  refine ⟨?_, ?_, ?_⟩
  · intro st hst
    subst hst
    simp [CsrfProtectedFormWithGuard.from_data, hOk]
  · intro st e hst
    subst hst
    simp [CsrfProtectedFormWithGuard.from_data, hOk]
  · intro gG w hw
    cases gG with
    | forward st =>
        simp [CsrfProtectedFormWithGuard.from_data, hOk] at hw
    | error st e =>
        simp [CsrfProtectedFormWithGuard.from_data, hOk] at hw
    | success g =>
        simp [CsrfProtectedFormWithGuard.from_data, hOk] at hw
        refine ⟨?_, ?_⟩
        · rw [← hw]
        · rw [← hw]
          exact hOk

/-- C7 witness: concrete guarded run with a double-submit verifier, a
matching token, and a forwarding guard. -/
theorem claim_C7_witness :
    (∀ st, (@Outcome.forward Nat String Status Status.Forbidden) =
        .forward st →
      (CsrfProtectedFormWithGuard.from_data
          (@Outcome.success DoubleSubmitCookieCsrfToken Unit Status
          (DoubleSubmitCookieCsrfToken.mk "tok"))
          (@Outcome.success String Unit (Unit × Status) "tok")
          DoubleSubmitCookieCsrfToken.verify
          (@Outcome.forward Nat String Status Status.Forbidden)
          () (none : CacheSlot CsrfCheckProof)).1 =
        .error Status.InternalServerError .FromRequestForwarded) ∧
    (∀ st e, (@Outcome.forward Nat String Status Status.Forbidden) =
        .error st e →
      (CsrfProtectedFormWithGuard.from_data
          (@Outcome.success DoubleSubmitCookieCsrfToken Unit Status
          (DoubleSubmitCookieCsrfToken.mk "tok"))
          (@Outcome.success String Unit (Unit × Status) "tok")
          DoubleSubmitCookieCsrfToken.verify
          (@Outcome.forward Nat String Status Status.Forbidden)
          () (none : CacheSlot CsrfCheckProof)).1 =
        .error st (.FromRequestFailed st e)) ∧
    (∀ (gG : Outcome Nat String Status)
        (w : CsrfProtectedFormWithGuard String CsrfCheckProof Nat),
      (CsrfProtectedFormWithGuard.from_data
          (@Outcome.success DoubleSubmitCookieCsrfToken Unit Status
          (DoubleSubmitCookieCsrfToken.mk "tok"))
          (@Outcome.success String Unit (Unit × Status) "tok")
          DoubleSubmitCookieCsrfToken.verify gG
          () (none : CacheSlot CsrfCheckProof)).1 = .success w →
      gG = .success w.guard ∧
        (DoubleSubmitCookieCsrfToken.mk "tok").verify w.form =
          .ok w.proof) :=
  claim_C7
    (@Outcome.success DoubleSubmitCookieCsrfToken Unit Status
          (DoubleSubmitCookieCsrfToken.mk "tok"))
    (@Outcome.success String Unit (Unit × Status) "tok")
    DoubleSubmitCookieCsrfToken.verify
    (@Outcome.forward Nat String Status Status.Forbidden)
    () none
    (DoubleSubmitCookieCsrfToken.mk "tok") "tok" .PassedCsrfChecks
    rfl rfl (by simp [DoubleSubmitCookieCsrfToken.verify])

/-- C8: for the header check with a known-expected-token verifier over a
fresh request cache: an absent X-CSRF-Token header fails at Forbidden with
NoHeaderPresent; a header equal to the expected token succeeds and publishes
the proof; a differing header fails at Forbidden with the verification
error; and a failed verifier extraction fails with the distinct
NoVerifierFound error. -/
theorem claim_C8 {P VE : Type}
    (guardV : Outcome (KnownExpectedVerifier P) VE Status)
    (v : KnownExpectedVerifier P) (header : Option String) (t : String)
    (s : Status) (e : VE) :
    (guardV = .success v → header = none →
      CheckCsrfProtectionHeader.from_request guardV header
          KnownExpectedVerifier.verify (none : CacheSlot P) =
        (.error Status.Forbidden .NoHeaderPresent, none)) ∧
    (guardV = .success v → header = some t → t = v.expected_token →
      CheckCsrfProtectionHeader.from_request guardV header
          KnownExpectedVerifier.verify (none : CacheSlot P) =
        (.success ⟨⟩, some (some v.defaultProof))) ∧
    (guardV = .success v → header = some t → t ≠ v.expected_token →
      CheckCsrfProtectionHeader.from_request guardV header
          KnownExpectedVerifier.verify (none : CacheSlot P) =
        (.error Status.Forbidden .CsrfTokenVerificationErr, none)) ∧
    (guardV = .error s e →
      CheckCsrfProtectionHeader.from_request guardV header
          KnownExpectedVerifier.verify (none : CacheSlot P) =
        (.error s .NoVerifierFound, none)) := by
  refine ⟨?_, ?_, ?_, ?_⟩
  · intro hV hH
    subst hV hH
    rfl
  · intro hV hH ht
    subst hV hH ht
    simp [CheckCsrfProtectionHeader.from_request,
      KnownExpectedVerifier.verify, set_proof_in_cache, local_cache]
  · intro hV hH ht
    subst hV hH
    simp [CheckCsrfProtectionHeader.from_request,
      KnownExpectedVerifier.verify, ht]
  · intro hV
    subst hV
    rfl

/-- C8 witness: concrete instantiation of claim_C8 with a session verifier
expecting token T. -/
theorem claim_C8_witness :
    let v : KnownExpectedVerifier CsrfCheckProof :=
      ⟨"T", .PassedCsrfChecks⟩
    let gV : Outcome (KnownExpectedVerifier CsrfCheckProof) Unit Status :=
      .success v
    ((gV = .success v → (some "T" : Option String) = none →
      CheckCsrfProtectionHeader.from_request gV (some "T")
          KnownExpectedVerifier.verify (none : CacheSlot CsrfCheckProof) =
        (.error Status.Forbidden .NoHeaderPresent, none)) ∧
    (gV = .success v → (some "T" : Option String) = some "T" →
      "T" = v.expected_token →
      CheckCsrfProtectionHeader.from_request gV (some "T")
          KnownExpectedVerifier.verify (none : CacheSlot CsrfCheckProof) =
        (.success ⟨⟩, some (some v.defaultProof))) ∧
    (gV = .success v → (some "T" : Option String) = some "T" →
      "T" ≠ v.expected_token →
      CheckCsrfProtectionHeader.from_request gV (some "T")
          KnownExpectedVerifier.verify (none : CacheSlot CsrfCheckProof) =
        (.error Status.Forbidden .CsrfTokenVerificationErr, none)) ∧
    (gV = .error Status.InternalServerError () →
      CheckCsrfProtectionHeader.from_request gV (some "T")
          KnownExpectedVerifier.verify (none : CacheSlot CsrfCheckProof) =
        (.error Status.InternalServerError .NoVerifierFound, none))) ∧
    CheckCsrfProtectionHeader.from_request gV (some "T")
        KnownExpectedVerifier.verify (none : CacheSlot CsrfCheckProof) =
      (.success ⟨⟩, some (some CsrfCheckProof.PassedCsrfChecks)) :=
  ⟨claim_C8
      (@Outcome.success (KnownExpectedVerifier CsrfCheckProof) Unit Status
        ⟨"T", CsrfCheckProof.PassedCsrfChecks⟩)
      ⟨"T", CsrfCheckProof.PassedCsrfChecks⟩
      (some "T") "T" Status.InternalServerError (),
   (claim_C8
      (@Outcome.success (KnownExpectedVerifier CsrfCheckProof) Unit Status
        ⟨"T", CsrfCheckProof.PassedCsrfChecks⟩)
      ⟨"T", CsrfCheckProof.PassedCsrfChecks⟩
      (some "T") "T" Status.InternalServerError ()).2.1 rfl rfl rfl⟩

/-- C9 counterexample: a struct with exactly one lifetime parameter but a
second (type) generic parameter and no declared token field; the transform
injects csrf_token typed as an owned String, not as the borrowed str at
the lifetime that the claim predicts for structs with exactly one lifetime
parameter. -/
theorem claim_C9_counterexample :
    countLifetimes
      (ItemStruct.mk [.lifetime "a", .tyParam "T"]
        [("name", FieldType.other "str")]).params = 1 ∧
    (with_csrf_token none
      (ItemStruct.mk [.lifetime "a", .tyParam "T"]
        [("name", FieldType.other "str")])).fields =
      [("name", FieldType.other "str"), ("csrf_token", FieldType.string)] ∧
    FieldType.string ≠ FieldType.refStr "a" := by
  refine ⟨rfl, rfl, by decide⟩

/-- C9 amended: for every named-fields payload struct with no declared
csrf_token field, with_csrf_token injects a field named csrf_token, typed as
the borrowed str at the struct lifetime exactly when the generic parameter
list is a single parameter that is a lifetime, and as an owned String in
every other case (including structs that carry further type or const
parameters next to one lifetime). -/
theorem claim_C9_amended (item : ItemStruct)
    (hNoField : (item.fields.any fun f => f.1 = "csrf_token") = false) :
    (∀ l, item.params = [GenericParam.lifetime l] →
      (with_csrf_token none item).fields =
        item.fields ++ [("csrf_token", FieldType.refStr l)]) ∧
    ((∀ l, item.params ≠ [GenericParam.lifetime l]) →
      (with_csrf_token none item).fields =
        item.fields ++ [("csrf_token", FieldType.string)]) := by
  obtain ⟨ps, fs⟩ := item
  simp only at hNoField
  constructor
  · intro l hl
    simp only at hl
    subst hl
    simp [with_csrf_token, get_singular_lifetime, hNoField]
  · intro h
    have hg : get_singular_lifetime ⟨ps, fs⟩ = none := by
      rcases ps with _ | ⟨p, _ | ⟨q, rest⟩⟩
      · rfl
      · cases p with
        | lifetime l => exact absurd rfl (h l)
        | tyParam n => rfl
        | constParam n => rfl
      · simp [get_singular_lifetime]
    simp [with_csrf_token, hg, hNoField]

/-- C9 witness: concrete applications of claim_C9_amended: a struct whose
only generic parameter is one lifetime receives a borrowed csrf_token field
at that lifetime, and the same struct with an extra type parameter receives
an owned String csrf_token field. -/
theorem claim_C9_witness :
    (with_csrf_token none
      (ItemStruct.mk [GenericParam.lifetime "a"]
        [("name", FieldType.other "str")])).fields =
      [("name", FieldType.other "str"),
       ("csrf_token", FieldType.refStr "a")] ∧
    (with_csrf_token none
      (ItemStruct.mk [GenericParam.lifetime "a", GenericParam.tyParam "T"]
        [("name", FieldType.other "str")])).fields =
      [("name", FieldType.other "str"), ("csrf_token", FieldType.string)] := by
  constructor
  · exact (claim_C9_amended
      (ItemStruct.mk [GenericParam.lifetime "a"]
        [("name", FieldType.other "str")]) (by decide)).1 "a" rfl
  · refine (claim_C9_amended
      (ItemStruct.mk [GenericParam.lifetime "a", GenericParam.tyParam "T"]
        [("name", FieldType.other "str")]) (by decide)).2 ?_
    intro l hl
    simp at hl
